import Mathlib

/-!
# OpenFeelz affective state engine — verification development

Shallow embedding of the personality-modulated affective state engine:
the bounded value model, personality derivation, exponential decay engine,
stimulus/label mapping, rumination automaton, state orchestrator
(`StateManager`) and the durable store's locking discipline, together with
theorems settling the specification claims about them.

Numbers are modelled as real numbers (the source uses IEEE doubles and
`Math.exp`); record updates model the source's spread-copy update style.
-/

namespace OpenFeelz

-- ---------------------------------------------------------------------------
-- Data model (src/types.ts)
-- ---------------------------------------------------------------------------

/-- PAD core dimensions + AI-relevant extensions (`DimensionalState`). -/
structure DimensionalState where
  pleasure : ℝ
  arousal : ℝ
  dominance : ℝ
  connection : ℝ
  curiosity : ℝ
  energy : ℝ
  trust : ℝ

/-- Names of all dimension keys (`DimensionName`). -/
inductive DimensionName where
  | pleasure | arousal | dominance | connection | curiosity | energy | trust
deriving DecidableEq, Repr

/-- `DIMENSION_NAMES`: all dimension names, in source order. -/
def DIMENSION_NAMES : List DimensionName :=
  [.pleasure, .arousal, .dominance, .connection, .curiosity, .energy, .trust]

/-- Read one named field of a `DimensionalState`. -/
def DimensionalState.get (d : DimensionalState) : DimensionName → ℝ
  | .pleasure => d.pleasure
  | .arousal => d.arousal
  | .dominance => d.dominance
  | .connection => d.connection
  | .curiosity => d.curiosity
  | .energy => d.energy
  | .trust => d.trust

/-- Write one named field of a `DimensionalState` (spread-copy update). -/
def DimensionalState.set (d : DimensionalState) : DimensionName → ℝ → DimensionalState
  | .pleasure, v => { d with pleasure := v }
  | .arousal, v => { d with arousal := v }
  | .dominance, v => { d with dominance := v }
  | .connection, v => { d with connection := v }
  | .curiosity, v => { d with curiosity := v }
  | .energy, v => { d with energy := v }
  | .trust, v => { d with trust := v }

/-- Ekman's 6 basic emotions (`BasicEmotions`). -/
structure BasicEmotions where
  happiness : ℝ
  sadness : ℝ
  anger : ℝ
  fear : ℝ
  disgust : ℝ
  surprise : ℝ

/-- Names of the basic emotions (`BasicEmotionName`). -/
inductive BasicEmotionName where
  | happiness | sadness | anger | fear | disgust | surprise
deriving DecidableEq, Repr

/-- `BASIC_EMOTION_NAMES`: all basic emotion names, in source order. -/
def BASIC_EMOTION_NAMES : List BasicEmotionName :=
  [.happiness, .sadness, .anger, .fear, .disgust, .surprise]

/-- Read one named field of `BasicEmotions`. -/
def BasicEmotions.get (e : BasicEmotions) : BasicEmotionName → ℝ
  | .happiness => e.happiness
  | .sadness => e.sadness
  | .anger => e.anger
  | .fear => e.fear
  | .disgust => e.disgust
  | .surprise => e.surprise

/-- Write one named field of `BasicEmotions`. -/
def BasicEmotions.set (e : BasicEmotions) : BasicEmotionName → ℝ → BasicEmotions
  | .happiness, v => { e with happiness := v }
  | .sadness, v => { e with sadness := v }
  | .anger, v => { e with anger := v }
  | .fear, v => { e with fear := v }
  | .disgust, v => { e with disgust := v }
  | .surprise, v => { e with surprise := v }

/-- Big Five personality traits (`OCEANProfile`). -/
structure OCEANProfile where
  openness : ℝ
  conscientiousness : ℝ
  extraversion : ℝ
  agreeableness : ℝ
  neuroticism : ℝ

/-- Names of the OCEAN traits (`OCEANTrait`). -/
inductive OCEANTrait where
  | openness | conscientiousness | extraversion | agreeableness | neuroticism
deriving DecidableEq, Repr

/-- Read one named trait of an `OCEANProfile`. -/
def OCEANProfile.get (p : OCEANProfile) : OCEANTrait → ℝ
  | .openness => p.openness
  | .conscientiousness => p.conscientiousness
  | .extraversion => p.extraversion
  | .agreeableness => p.agreeableness
  | .neuroticism => p.neuroticism

/-- Write one named trait of an `OCEANProfile`. -/
def OCEANProfile.set (p : OCEANProfile) : OCEANTrait → ℝ → OCEANProfile
  | .openness, v => { p with openness := v }
  | .conscientiousness, v => { p with conscientiousness := v }
  | .extraversion, v => { p with extraversion := v }
  | .agreeableness, v => { p with agreeableness := v }
  | .neuroticism, v => { p with neuroticism := v }

/-- Per-dimension decay rates (`DecayRates = Record<DimensionName, number>`). -/
abbrev DecayRates := DimensionalState

/-- Per-basic-emotion decay rates (`EmotionDecayRates`). -/
abbrev EmotionDecayRates := BasicEmotions

-- ---------------------------------------------------------------------------
-- Bounded value model (emotion-model.ts; only callers are under src/)
-- ---------------------------------------------------------------------------

/-- Modelled from the spec: `clampBipolar` of the bounded value model whose
source file `model/emotion-model.ts` is absent from the repository snapshot
(only its callers and tests are present): `clampBipolar(x) → max(-1, min(1, x))`. -/
def clampBipolar (x : ℝ) : ℝ := max (-1) (min 1 x)

/-- Modelled from the spec: `clampUnipolar(x) → max(0, min(1, x))` from the
absent `model/emotion-model.ts`. -/
def clampUnipolar (x : ℝ) : ℝ := max 0 (min 1 x)

/-- `BIPOLAR_DIMENSIONS` membership: pleasure, arousal, dominance range over
[-1, 1]; the remaining dimensions over [0, 1]. -/
def DimensionName.isBipolar : DimensionName → Bool
  | .pleasure | .arousal | .dominance => true
  | _ => false

/-- Modelled from the spec: `clampDimension` from the absent
`model/emotion-model.ts` routes each write through the clamp matching the
dimension's declared range. -/
def clampDimension (name : DimensionName) (x : ℝ) : ℝ :=
  if name.isBipolar then clampBipolar x else clampUnipolar x

/-- Modelled from the spec: `clampEmotion` from the absent
`model/emotion-model.ts`; basic emotions are unipolar. -/
def clampEmotion (x : ℝ) : ℝ := clampUnipolar x

/-- Modelled from the spec: `createDefaultBasicEmotions` from the absent
`model/emotion-model.ts`; every basic emotion rests at 0. -/
def createDefaultBasicEmotions : BasicEmotions :=
  { happiness := 0, sadness := 0, anger := 0, fear := 0, disgust := 0, surprise := 0 }

/-- Modelled from the spec: `createDefaultDimensionalState` from the absent
`model/emotion-model.ts`; the neutral vector has bipolar dimensions at 0 and
unipolar dimensions at 0.5. -/
def createDefaultDimensionalState : DimensionalState :=
  { pleasure := 0, arousal := 0, dominance := 0,
    connection := 0.5, curiosity := 0.5, energy := 0.5, trust := 0.5 }

-- ---------------------------------------------------------------------------
-- Decay engine (src/model/decay.ts)
-- ---------------------------------------------------------------------------

/-- `decayTowardBaseline(current, baseline, rate, elapsedHours)` from
`model/decay.ts`: exponential relaxation toward the baseline, returning the
current value unchanged when no time has elapsed. -/
noncomputable def decayTowardBaseline (current baseline rate elapsedHours : ℝ) : ℝ :=
  if elapsedHours ≤ 0 then current
  else baseline + (current - baseline) * Real.exp (-(rate * elapsedHours))

/-- `decayDimensions` from `model/decay.ts`: decay every dimension toward its
baseline and clamp the result. -/
noncomputable def decayDimensions (state baseline : DimensionalState)
    (rates : DecayRates) (elapsedHours : ℝ) : DimensionalState :=
  { pleasure := clampDimension .pleasure
      (decayTowardBaseline state.pleasure baseline.pleasure rates.pleasure elapsedHours)
    arousal := clampDimension .arousal
      (decayTowardBaseline state.arousal baseline.arousal rates.arousal elapsedHours)
    dominance := clampDimension .dominance
      (decayTowardBaseline state.dominance baseline.dominance rates.dominance elapsedHours)
    connection := clampDimension .connection
      (decayTowardBaseline state.connection baseline.connection rates.connection elapsedHours)
    curiosity := clampDimension .curiosity
      (decayTowardBaseline state.curiosity baseline.curiosity rates.curiosity elapsedHours)
    energy := clampDimension .energy
      (decayTowardBaseline state.energy baseline.energy rates.energy elapsedHours)
    trust := clampDimension .trust
      (decayTowardBaseline state.trust baseline.trust rates.trust elapsedHours) }

/-- `decayBasicEmotions` from `model/decay.ts`: decay every basic emotion
toward zero and clamp the result. -/
noncomputable def decayBasicEmotions (emotions : BasicEmotions)
    (rates : EmotionDecayRates) (elapsedHours : ℝ) : BasicEmotions :=
  { happiness := clampEmotion
      (decayTowardBaseline emotions.happiness 0 rates.happiness elapsedHours)
    sadness := clampEmotion
      (decayTowardBaseline emotions.sadness 0 rates.sadness elapsedHours)
    anger := clampEmotion
      (decayTowardBaseline emotions.anger 0 rates.anger elapsedHours)
    fear := clampEmotion
      (decayTowardBaseline emotions.fear 0 rates.fear elapsedHours)
    disgust := clampEmotion
      (decayTowardBaseline emotions.disgust 0 rates.disgust elapsedHours)
    surprise := clampEmotion
      (decayTowardBaseline emotions.surprise 0 rates.surprise elapsedHours) }

-- ---------------------------------------------------------------------------
-- Personality derivation (src/model/personality.ts)
-- ---------------------------------------------------------------------------

noncomputable section

/-- `createDefaultPersonality` from `model/personality.ts`: all traits at 0.5. -/
def createDefaultPersonality : OCEANProfile :=
  { openness := 0.5, conscientiousness := 0.5, extraversion := 0.5,
    agreeableness := 0.5, neuroticism := 0.5 }

/-- `computeBaseline` from `model/personality.ts`: start from the neutral
vector (PAD = 0, extensions = 0.5), add each trait's weighted influence from
`TRAIT_BASELINE_INFLUENCE` (weight · (trait − 0.5)), then clamp each field. -/
def computeBaseline (personality : OCEANProfile) : DimensionalState :=
  let dO := personality.openness - 0.5
  let dC := personality.conscientiousness - 0.5
  let dE := personality.extraversion - 0.5
  let dA := personality.agreeableness - 0.5
  let dN := personality.neuroticism - 0.5
  { pleasure := clampDimension .pleasure (0 + 0.25 * dE + 0.1 * dA + (-0.25) * dN)
    arousal := clampDimension .arousal (0 + 0.2 * dE + 0.15 * dN)
    dominance := clampDimension .dominance (0 + 0.1 * dO + 0.15 * dC)
    connection := clampDimension .connection (0.5 + 0.15 * dE + 0.25 * dA)
    curiosity := clampDimension .curiosity (0.5 + 0.3 * dO)
    energy := clampDimension .energy (0.5 + 0.2 * dC + (-0.1) * dN)
    trust := clampDimension .trust (0.5 + 0.2 * dA) }

/-- `computeDimensionDecayRates` from `model/personality.ts`: base per-hour
rates from `BASE_DIMENSION_DECAY_RATES`, each multiplied per influencing
trait by `max 0.1 (1 + weight · (trait − 0.5))`, in trait order of
`TRAIT_DIMENSION_DECAY_INFLUENCE`. -/
def computeDimensionDecayRates (personality : OCEANProfile) : DecayRates :=
  let dO := personality.openness - 0.5
  let dC := personality.conscientiousness - 0.5
  let dE := personality.extraversion - 0.5
  let dA := personality.agreeableness - 0.5
  let dN := personality.neuroticism - 0.5
  { pleasure := 0.058 * max 0.1 (1 + 0.2 * dE) * max 0.1 (1 + (-0.4) * dN)
    arousal := 0.087 * max 0.1 (1 + 0.3 * dE) * max 0.1 (1 + (-0.2) * dN)
    dominance := 0.046
    connection := 0.035 * max 0.1 (1 + (-0.2) * dA)
    curiosity := 0.058 * max 0.1 (1 + (-0.3) * dO)
    energy := 0.046 * max 0.1 (1 + 0.2 * dC)
    trust := 0.035 }

/-- `computeEmotionDecayRates` from `model/personality.ts`: base rates from
`BASE_EMOTION_DECAY_RATES`, modulated per `TRAIT_EMOTION_DECAY_INFLUENCE`. -/
def computeEmotionDecayRates (personality : OCEANProfile) : EmotionDecayRates :=
  let dO := personality.openness - 0.5
  let dE := personality.extraversion - 0.5
  let dA := personality.agreeableness - 0.5
  let dN := personality.neuroticism - 0.5
  { happiness := 0.058 * max 0.1 (1 + (-0.2) * dE) * max 0.1 (1 + (-0.1) * dO)
    sadness := 0.046 * max 0.1 (1 + 0.4 * dE) * max 0.1 (1 + (-0.4) * dN)
    anger := 0.058 * max 0.1 (1 + (-0.3) * dN) * max 0.1 (1 + 0.3 * dA)
    fear := 0.058 * max 0.1 (1 + (-0.3) * dN)
    disgust := 0.046 * max 0.1 (1 + (-0.2) * dN)
    surprise := 0.139 * max 0.1 (1 + (-0.3) * dO) }

/-- `computeRuminationProbability` from `model/personality.ts`. -/
def computeRuminationProbability (personality : OCEANProfile) : ℝ :=
  max 0 (min 1 (0.5 + (personality.neuroticism - 0.5) * 0.6 +
    (personality.openness - 0.5) * 0.2 + (personality.conscientiousness - 0.5) * (-0.3)))

/-- `computeResponseIntensityMultiplier` from `model/personality.ts`. -/
def computeResponseIntensityMultiplier (personality : OCEANProfile) : ℝ :=
  max 0.5 (min 2.0 (1.0 + (personality.neuroticism - 0.5) * 0.4 +
    (personality.agreeableness - 0.5) * (-0.2)))

end

-- ---------------------------------------------------------------------------
-- Stimulus/label mapping (src/model/mapping.ts)
-- ---------------------------------------------------------------------------

/-- Sparse delta vector of an emotion label (`EmotionDimensionDelta`); the
partial records of the source become association lists in entry order. -/
structure EmotionDimensionDelta where
  dimensions : List (DimensionName × ℝ)
  emotions : List (BasicEmotionName × ℝ)

/-- `ALL_EMOTION_MAPPINGS` from `model/mapping.ts`: canonical label →
delta vector, deltas calibrated at intensity 1.0, in source order. -/
noncomputable def ALL_EMOTION_MAPPINGS : List (String × EmotionDimensionDelta) :=
  [("happy", { dimensions := [(.pleasure, 0.2), (.arousal, 0.1), (.energy, 0.05)],
               emotions := [(.happiness, 0.3)] }),
   ("excited", { dimensions := [(.pleasure, 0.15), (.arousal, 0.25), (.energy, 0.1)],
                 emotions := [(.happiness, 0.2), (.surprise, 0.1)] }),
   ("calm", { dimensions := [(.pleasure, 0.1), (.arousal, -0.15), (.energy, 0.05)],
              emotions := [(.happiness, 0.05)] }),
   ("relieved", { dimensions := [(.pleasure, 0.15), (.arousal, -0.1), (.energy, 0.05)],
                  emotions := [(.happiness, 0.1)] }),
   ("optimistic", { dimensions := [(.pleasure, 0.15), (.arousal, 0.05), (.energy, 0.1)],
                    emotions := [(.happiness, 0.15)] }),
   ("energized", { dimensions := [(.pleasure, 0.1), (.arousal, 0.15), (.energy, 0.25)],
                   emotions := [(.happiness, 0.1)] }),
   ("sad", { dimensions := [(.pleasure, -0.2), (.arousal, -0.15), (.energy, -0.1)],
             emotions := [(.sadness, 0.3)] }),
   ("angry", { dimensions := [(.pleasure, -0.15), (.arousal, 0.25), (.dominance, 0.1), (.trust, -0.05)],
               emotions := [(.anger, 0.3)] }),
   ("frustrated", { dimensions := [(.pleasure, -0.1), (.arousal, 0.15), (.dominance, -0.05), (.energy, -0.05)],
                    emotions := [(.anger, 0.2)] }),
   ("fearful", { dimensions := [(.pleasure, -0.15), (.arousal, 0.2), (.dominance, -0.15)],
                 emotions := [(.fear, 0.3)] }),
   ("anxious", { dimensions := [(.pleasure, -0.1), (.arousal, 0.15), (.dominance, -0.1), (.energy, -0.05)],
                 emotions := [(.fear, 0.2)] }),
   ("disgusted", { dimensions := [(.pleasure, -0.2), (.arousal, 0.1)],
                   emotions := [(.disgust, 0.3)] }),
   ("curious", { dimensions := [(.curiosity, 0.2), (.arousal, 0.1), (.pleasure, 0.05)],
                 emotions := [(.surprise, 0.05)] }),
   ("confused", { dimensions := [(.curiosity, 0.1), (.arousal, 0.1), (.dominance, -0.1)],
                  emotions := [(.surprise, 0.1)] }),
   ("focused", { dimensions := [(.curiosity, 0.1), (.arousal, 0.05), (.energy, 0.05), (.dominance, 0.05)],
                 emotions := [] }),
   ("surprised", { dimensions := [(.arousal, 0.2), (.curiosity, 0.1)],
                   emotions := [(.surprise, 0.3)] }),
   ("connected", { dimensions := [(.connection, 0.2), (.pleasure, 0.1), (.trust, 0.1)],
                   emotions := [(.happiness, 0.1)] }),
   ("trusting", { dimensions := [(.trust, 0.15), (.connection, 0.1), (.pleasure, 0.05)],
                  emotions := [(.happiness, 0.05)] }),
   ("lonely", { dimensions := [(.connection, -0.2), (.pleasure, -0.1)],
                emotions := [(.sadness, 0.15)] }),
   ("fatigued", { dimensions := [(.energy, -0.25), (.arousal, -0.1), (.pleasure, -0.05)],
                  emotions := [(.sadness, 0.05)] }),
   ("neutral", { dimensions := [], emotions := [] })]

/-- `LABEL_ALIASES` from `model/mapping.ts`: synonym → canonical label. -/
def LABEL_ALIASES : List (String × String) :=
  [("joy", "happy"), ("happiness", "happy"),
   ("contentment", "calm"), ("content", "calm"), ("peaceful", "calm"), ("peace", "calm"),
   ("anger", "angry"), ("rage", "angry"),
   ("irritated", "frustrated"), ("irritation", "frustrated"),
   ("sadness", "sad"), ("sorrow", "sad"), ("disappointment", "sad"), ("disappointed", "sad"),
   ("fear", "fearful"), ("scared", "fearful"), ("terrified", "fearful"),
   ("anxiety", "anxious"), ("worried", "anxious"), ("worry", "anxious"),
   ("disgust", "disgusted"), ("revulsion", "disgusted"),
   ("surprise", "surprised"), ("shocked", "surprised"), ("astonished", "surprised"),
   ("curiosity", "curious"), ("interest", "curious"), ("interested", "curious"),
   ("fascinated", "curious"),
   ("confusion", "confused"), ("bewildered", "confused"),
   ("connection", "connected"), ("warmth", "connected"), ("warm", "connected"),
   ("bonded", "connected"),
   ("trust", "trusting"),
   ("loneliness", "lonely"), ("isolated", "lonely"),
   ("fatigue", "fatigued"), ("tired", "fatigued"), ("exhausted", "fatigued"),
   ("depleted", "fatigued"),
   ("excitement", "excited"), ("thrilled", "excited"),
   ("relief", "relieved"),
   ("optimism", "optimistic"), ("hopeful", "optimistic"), ("hope", "optimistic"),
   ("energy", "energized"), ("energetic", "energized"), ("vigorous", "energized"),
   ("focus", "focused"), ("concentrated", "focused"), ("attentive", "focused")]

/-- JS `String.prototype.toLowerCase` over the underlying characters. -/
def jsToLowerCase (s : String) : String :=
  ⟨s.data.map Char.toLower⟩

/-- JS `String.prototype.trim`: strip leading and trailing whitespace. -/
def jsTrim (s : String) : String :=
  ⟨((s.data.dropWhile Char.isWhitespace).reverse.dropWhile Char.isWhitespace).reverse⟩

/-- `getEmotionMapping` from `model/mapping.ts`: trim + lowercase the label,
resolve an alias when one applies, and look up the master table; unknown
labels yield `none`. -/
noncomputable def getEmotionMapping (label : String) : Option EmotionDimensionDelta :=
  let normalized := jsToLowerCase (jsTrim label)
  let canonical := (LABEL_ALIASES.lookup normalized).getD normalized
  ALL_EMOTION_MAPPINGS.lookup canonical

/-- `applyEmotionMapping` from `model/mapping.ts`: apply a label's deltas,
each scaled by `intensity` and clamped on write; unknown labels return the
inputs unchanged. -/
noncomputable def applyEmotionMapping (dimensions : DimensionalState)
    (emotions : BasicEmotions) (label : String) (intensity : ℝ) :
    DimensionalState × BasicEmotions :=
  match getEmotionMapping label with
  | none => (dimensions, emotions)
  | some mapping =>
    let newDims := mapping.dimensions.foldl
      (fun d p => d.set p.1 (clampDimension p.1 (d.get p.1 + p.2 * intensity))) dimensions
    let newEmos := mapping.emotions.foldl
      (fun e p => e.set p.1 (clampEmotion (e.get p.1 + p.2 * intensity))) emotions
    (newDims, newEmos)

-- ---------------------------------------------------------------------------
-- Stimuli, rumination, buckets, aggregate state (src/types.ts)
-- ---------------------------------------------------------------------------

/-- A classified emotional event (`EmotionStimulus`). -/
structure EmotionStimulus where
  id : String
  timestamp : String
  label : String
  intensity : ℝ
  trigger : String
  confidence : ℝ
  sourceRole : String
  sourceHash : Option String

/-- One active rumination entry (`RuminationEntry`). -/
structure RuminationEntry where
  stimulusId : String
  label : String
  stage : ℕ
  intensity : ℝ
  lastStageTimestamp : String

/-- Aggregate rumination state (`RuminationState`). -/
structure RuminationState where
  active : List RuminationEntry

/-- Tracked emotional state for a user or agent (`EmotionBucket`). -/
structure EmotionBucket where
  latest : Option EmotionStimulus
  history : List EmotionStimulus

/-- Result from the emotion classifier (`ClassificationResult`). -/
structure ClassificationResult where
  label : String
  intensity : ℝ
  reason : String
  confidence : ℝ

/-- PAD triple of a cached personality analysis. -/
structure PADTriple where
  pleasure : ℝ
  arousal : ℝ
  dominance : ℝ

/-- Extension quadruple of a cached personality analysis. -/
structure ExtensionQuad where
  connection : ℝ
  curiosity : ℝ
  energy : ℝ
  trust : ℝ

/-- Cached personality analysis from the background LLM job. -/
structure CachedPersonalityAnalysis where
  summary : String
  generatedAt : String
  pad : PADTriple
  extensions : ExtensionQuad
  ocean : OCEANProfile

/-- Cached emotional-state description from the background LLM job. -/
structure CachedEmotionalStateDescription where
  summary : String
  generatedAt : String
  primary : String
  intensity : ℝ
  notes : List String

/-- Cached LLM analysis block (`CachedAnalysis`). -/
structure CachedAnalysis where
  personality : Option CachedPersonalityAnalysis
  emotionalState : Option CachedEmotionalStateDescription

/-- Metadata block of the persisted state. -/
structure StateMeta where
  totalUpdates : ℕ
  createdAt : String

/-- Complete persisted state (`EmotionEngineState`); the `users`/`agents`
string-keyed records become partial maps. -/
structure EmotionEngineState where
  version : ℕ
  lastUpdated : String
  personality : OCEANProfile
  dimensions : DimensionalState
  baseline : DimensionalState
  decayRates : DecayRates
  emotionDecayRates : EmotionDecayRates
  basicEmotions : BasicEmotions
  recentStimuli : List EmotionStimulus
  rumination : RuminationState
  users : String → Option EmotionBucket
  agents : String → Option EmotionBucket
  meta : StateMeta
  cachedAnalysis : Option CachedAnalysis

/-- The engine-relevant slice of the resolved configuration
(`EmotionEngineConfig`): the fields the `StateManager` reads. -/
structure EmotionEngineConfig where
  maxHistory : ℕ
  ruminationEnabled : Bool
  ruminationThreshold : ℝ
  ruminationMaxStages : ℕ

-- ---------------------------------------------------------------------------
-- Rumination automaton (model/rumination.ts; only callers/tests under src/)
-- ---------------------------------------------------------------------------

noncomputable section

/-- Modelled from the spec: `createEmptyRuminationState` from the absent
`model/rumination.ts`. -/
def createEmptyRuminationState : RuminationState := { active := [] }

/-- Modelled from the spec: `shouldStartRumination` from the absent
`model/rumination.ts`: the stimulus starts rumination when its effective
intensity strictly exceeds `threshold + probability · 0.3`. -/
def shouldStartRumination (intensity threshold probability : ℝ) : Bool :=
  intensity > threshold + probability * 0.3

/-- Modelled from the spec: `startRumination` from the absent
`model/rumination.ts`: create a stage-0 entry keyed by the stimulus id with
the stimulus's intensity; duplicate starts for the same stimulus id are
no-ops. -/
def startRumination (st : RuminationState) (stimulus : EmotionStimulus) :
    RuminationState :=
  if st.active.any (fun e => e.stimulusId == stimulus.id) then st
  else { active := st.active ++
      [{ stimulusId := stimulus.id, label := stimulus.label, stage := 0,
         intensity := stimulus.intensity, lastStageTimestamp := stimulus.timestamp }] }

/-- Modelled from the spec: `advanceRumination` from the absent
`model/rumination.ts`: for every entry multiply intensity by the decay
factor and increment the stage, then drop it when `stage ≥ maxStages` or
`intensity < 0.05`. -/
def advanceRumination (st : RuminationState) (maxStages : ℕ) (decayFactor : ℝ) :
    RuminationState :=
  { active := st.active.filterMap fun e =>
      if maxStages ≤ e.stage + 1 ∨ e.intensity * decayFactor < 0.05 then none
      else some { e with intensity := e.intensity * decayFactor, stage := e.stage + 1 } }

/-- Modelled from the spec: `applyRuminationEffects` from the absent
`model/rumination.ts`: apply each active entry's label through the same
delta-mapping mechanism, scaled by the entry's current intensity. -/
def applyRuminationEffects (st : RuminationState) (dimensions : DimensionalState)
    (emotions : BasicEmotions) : DimensionalState × BasicEmotions :=
  st.active.foldl (fun acc e => applyEmotionMapping acc.1 acc.2 e.label e.intensity)
    (dimensions, emotions)

end

-- ---------------------------------------------------------------------------
-- State orchestrator (src/state/state-manager.ts)
-- ---------------------------------------------------------------------------

/-- `RUMINATION_DECAY_FACTOR` from `state/state-manager.ts`. -/
noncomputable def RUMINATION_DECAY_FACTOR : ℝ := 0.8

namespace StateManager

noncomputable section

/-- `StateManager.applyDecay`: elapsed hours floored at 0 (the source derives
`elapsedRaw` from the wall clock; it is a parameter here), decay all
dimensions and basic emotions, stamp the new last-updated time. -/
def applyDecay (elapsedRaw : ℝ) (nowIso : String) (state : EmotionEngineState) :
    EmotionEngineState :=
  let elapsedHours := max 0 elapsedRaw
  if elapsedHours ≤ 0 then state
  else
    { state with
      dimensions := decayDimensions state.dimensions state.baseline state.decayRates elapsedHours
      basicEmotions := decayBasicEmotions state.basicEmotions state.emotionDecayRates elapsedHours
      lastUpdated := nowIso }

/-- `StateManager.applyStimulus`: scale the intensity by the personality's
response-intensity multiplier capped at 1, apply the label's mapping, record
the stimulus in the capped history, evaluate rumination start, bump the
update counter. The generated UUID and timestamp are parameters. -/
def applyStimulus (config : EmotionEngineConfig) (uuid nowIso : String)
    (state : EmotionEngineState) (label : String) (intensity : ℝ)
    (trigger : String) : EmotionEngineState :=
  let multiplier := computeResponseIntensityMultiplier state.personality
  let scaledIntensity := min 1 (intensity * multiplier)
  let mapped := applyEmotionMapping state.dimensions state.basicEmotions label scaledIntensity
  let stimulus : EmotionStimulus :=
    { id := uuid, timestamp := nowIso, label := label, intensity := scaledIntensity,
      trigger := trigger, confidence := 1, sourceRole := "system", sourceHash := none }
  let recentStimuli := (stimulus :: state.recentStimuli).take config.maxHistory
  let rumination :=
    if config.ruminationEnabled then
      let prob := computeRuminationProbability state.personality
      if shouldStartRumination scaledIntensity config.ruminationThreshold prob then
        startRumination state.rumination stimulus
      else state.rumination
    else state.rumination
  { state with
    dimensions := mapped.1
    basicEmotions := mapped.2
    recentStimuli := recentStimuli
    rumination := rumination
    meta := { state.meta with totalUpdates := state.meta.totalUpdates + 1 } }

/-- `StateManager.advanceRumination`: no-op when rumination is disabled or no
entry is active; otherwise apply the current effects and advance every entry
one stage with decay factor `RUMINATION_DECAY_FACTOR`. -/
def advanceRumination (config : EmotionEngineConfig) (state : EmotionEngineState) :
    EmotionEngineState :=
  if config.ruminationEnabled = false ∨ state.rumination.active.length = 0 then state
  else
    let fx := applyRuminationEffects state.rumination state.dimensions state.basicEmotions
    { state with
      dimensions := fx.1
      basicEmotions := fx.2
      rumination :=
        OpenFeelz.advanceRumination state.rumination config.ruminationMaxStages
          RUMINATION_DECAY_FACTOR }

/-- `StateManager.setDimension`: clamped absolute override of one dimension,
bumping the update counter. -/
def setDimension (state : EmotionEngineState) (dimension : DimensionName)
    (value : ℝ) : EmotionEngineState :=
  { state with
    dimensions := state.dimensions.set dimension (clampDimension dimension value)
    meta := { state.meta with totalUpdates := state.meta.totalUpdates + 1 } }

/-- `StateManager.applyDimensionDeltaMethod`: clamped delta on one dimension,
bumping the update counter. -/
def applyDimensionDeltaMethod (state : EmotionEngineState)
    (dimension : DimensionName) (delta : ℝ) : EmotionEngineState :=
  { state with
    dimensions := state.dimensions.set dimension
      (clampDimension dimension (state.dimensions.get dimension + delta))
    meta := { state.meta with totalUpdates := state.meta.totalUpdates + 1 } }

/-- `StateManager.setPersonalityTrait`: clamp the value to [0, 1], replace the
trait, recompute baseline and both decay-rate maps from the new profile, bump
the update counter. -/
def setPersonalityTrait (state : EmotionEngineState) (trait : OCEANTrait)
    (value : ℝ) : EmotionEngineState :=
  let personality := state.personality.set trait (max 0 (min 1 value))
  { state with
    personality := personality
    baseline := computeBaseline personality
    decayRates := computeDimensionDecayRates personality
    emotionDecayRates := computeEmotionDecayRates personality
    meta := { state.meta with totalUpdates := state.meta.totalUpdates + 1 } }

/-- `StateManager.resetToBaseline`: set each named dimension (all when the
list is omitted or empty) to its baseline; a full reset also zeroes the basic
emotions and clears rumination; bump the update counter. -/
def resetToBaseline (state : EmotionEngineState)
    (dimensions : Option (List DimensionName)) : EmotionEngineState :=
  let isFullReset := match dimensions with
    | none => true
    | some l => l.isEmpty
  let dimsToReset := if isFullReset then DIMENSION_NAMES else dimensions.getD []
  let newDims := dimsToReset.foldl
    (fun d dim => d.set dim (state.baseline.get dim)) state.dimensions
  let basicEmotions := if isFullReset then createDefaultBasicEmotions else state.basicEmotions
  let rumination := if isFullReset then { active := [] } else state.rumination
  { state with
    dimensions := newDims
    basicEmotions := basicEmotions
    rumination := rumination
    meta := { state.meta with totalUpdates := state.meta.totalUpdates + 1 } }

/-- `StateManager.updateUserEmotion`: set the user's bucket `latest` and push
into its capped history; the generated UUID and timestamp are parameters. -/
def updateUserEmotion (config : EmotionEngineConfig) (uuid nowIso : String)
    (state : EmotionEngineState) (userKey : String)
    (result : ClassificationResult) : EmotionEngineState :=
  let bucket := (state.users userKey).getD { latest := none, history := [] }
  let stimulus : EmotionStimulus :=
    { id := uuid, timestamp := nowIso, label := result.label,
      intensity := result.intensity, trigger := result.reason,
      confidence := result.confidence, sourceRole := "user", sourceHash := none }
  let bucket :=
    { bucket with
      latest := some stimulus
      history := (stimulus :: bucket.history).take config.maxHistory }
  { state with users := fun k => if k = userKey then some bucket else state.users k }

/-- `StateManager.updateAgentEmotion`: set the agent's bucket `latest` and
push into its capped history; the generated UUID and timestamp are
parameters. -/
def updateAgentEmotion (config : EmotionEngineConfig) (uuid nowIso : String)
    (state : EmotionEngineState) (agentId : String)
    (result : ClassificationResult) : EmotionEngineState :=
  let bucket := (state.agents agentId).getD { latest := none, history := [] }
  let stimulus : EmotionStimulus :=
    { id := uuid, timestamp := nowIso, label := result.label,
      intensity := result.intensity, trigger := result.reason,
      confidence := result.confidence, sourceRole := "assistant", sourceHash := none }
  let bucket :=
    { bucket with
      latest := some stimulus
      history := (stimulus :: bucket.history).take config.maxHistory }
  { state with agents := fun k => if k = agentId then some bucket else state.agents k }

end

end StateManager

-- ---------------------------------------------------------------------------
-- Durable store (state/state-file.ts; only callers/tests under src/)
-- ---------------------------------------------------------------------------

/-- The observable filesystem slice the durable store touches: the lock
marker (present? modification time older than the staleness window?) and the
persisted state document. -/
structure LockFileSystem where
  lockExists : Bool
  lockStale : Bool
  fileContents : Option EmotionEngineState

/-- Modelled from the spec: `acquireLock` from the absent
`state/state-file.ts`: exclusive non-overwriting create of the lock marker;
an existing marker older than `staleMs` is treated as abandoned and forcibly
acquired; otherwise fail with `false` without blocking. -/
def acquireLock (fs : LockFileSystem) : Bool × LockFileSystem :=
  if fs.lockExists = false then (true, { fs with lockExists := true, lockStale := false })
  else if fs.lockStale then (true, { fs with lockStale := false })
  else (false, fs)

/-- Modelled from the spec: `releaseLock` from the absent
`state/state-file.ts`: remove the marker; idempotent. -/
def releaseLock (fs : LockFileSystem) : LockFileSystem :=
  { fs with lockExists := false }

/-- Modelled from the spec: `writeStateFile` from the absent
`state/state-file.ts`: serialize and write to a temporary sibling, then
atomically rename over the target. `writeOk` models whether the underlying
I/O succeeds; on failure nothing observable changes and the error
propagates. -/
def writeStateFile (writeOk : Bool) (state : EmotionEngineState)
    (fs : LockFileSystem) : Except String Unit × LockFileSystem :=
  if writeOk then (Except.ok (), { fs with fileContents := some state })
  else (Except.error "write failed", fs)

/-- Modelled from the spec: `buildEmptyState` from the absent
`state/state-file.ts`: the canonical empty v2 state with neutral personality
and the baselines and decay rates derived from it. -/
noncomputable def buildEmptyState (nowIso : String) : EmotionEngineState :=
  { version := 2
    lastUpdated := nowIso
    personality := createDefaultPersonality
    dimensions := createDefaultDimensionalState
    baseline := computeBaseline createDefaultPersonality
    decayRates := computeDimensionDecayRates createDefaultPersonality
    emotionDecayRates := computeEmotionDecayRates createDefaultPersonality
    basicEmotions := createDefaultBasicEmotions
    recentStimuli := []
    rumination := { active := [] }
    users := fun _ => none
    agents := fun _ => none
    meta := { totalUpdates := 0, createdAt := nowIso }
    cachedAnalysis := none }

/-- `StateManager.saveState` from `state/state-manager.ts`: acquire the lock
on the state file's lock path, stamp `lastUpdated`, write the state file,
and in the `finally` block release the lock only when it was acquired; the
write's outcome (ok or I/O error) is what the caller sees. The generated
timestamp is a parameter. -/
def StateManager.saveState (writeOk : Bool) (nowIso : String)
    (state : EmotionEngineState) (fs : LockFileSystem) :
    Except String Unit × LockFileSystem :=
  let acq := acquireLock fs
  let stamped := { state with lastUpdated := nowIso }
  let wr := writeStateFile writeOk stamped acq.2
  let fs3 := if acq.1 then releaseLock wr.2 else wr.2
  (wr.1, fs3)

end OpenFeelz

namespace OpenFeelz

-- ---------------------------------------------------------------------------
-- C3 / C4: the decay primitive
-- ---------------------------------------------------------------------------

/-- C3: for all real current, baseline, rate and elapsedHours,
`decayTowardBaseline` returns `current` unchanged when `elapsedHours ≤ 0`,
and otherwise returns `baseline + (current − baseline) · e^(−rate·elapsedHours)`. -/
theorem decayTowardBaseline_cases (current baseline rate elapsedHours : ℝ) :
    (elapsedHours ≤ 0 → decayTowardBaseline current baseline rate elapsedHours = current) ∧
    (0 < elapsedHours → decayTowardBaseline current baseline rate elapsedHours =
      baseline + (current - baseline) * Real.exp (-(rate * elapsedHours))) := by
  constructor
  · intro h
    simp [decayTowardBaseline, h]
  · intro h
    simp [decayTowardBaseline, not_le.mpr h]

/-- Witness for C3 at concrete inputs: elapsed −2 leaves the value unchanged
and elapsed 3 yields the exponential form. -/
theorem decayTowardBaseline_cases_witness :
    decayTowardBaseline 1 0 2 (-2) = 1 ∧
    decayTowardBaseline 1 0 2 3 = 0 + (1 - 0) * Real.exp (-(2 * 3)) :=
  ⟨(decayTowardBaseline_cases 1 0 2 (-2)).1 (by norm_num),
   (decayTowardBaseline_cases 1 0 2 3).2 (by norm_num)⟩

/-- C4: for positive rate and nonnegative elapsed time the decayed value lies
between current and baseline inclusive, and for fixed rate its distance from
the baseline is monotonically non-increasing in elapsed time. -/
theorem decayTowardBaseline_bounded_monotone (current baseline rate : ℝ)
    (hrate : 0 < rate) :
    (∀ elapsed : ℝ, 0 ≤ elapsed →
      min current baseline ≤ decayTowardBaseline current baseline rate elapsed ∧
      decayTowardBaseline current baseline rate elapsed ≤ max current baseline) ∧
    (∀ t1 t2 : ℝ, 0 ≤ t1 → t1 ≤ t2 →
      |decayTowardBaseline current baseline rate t2 - baseline| ≤
      |decayTowardBaseline current baseline rate t1 - baseline|) := by
  have key : ∀ t : ℝ, 0 < t →
      decayTowardBaseline current baseline rate t =
        baseline + (current - baseline) * Real.exp (-(rate * t)) := by
    intro t ht
    simp [decayTowardBaseline, not_le.mpr ht]
  constructor
  · intro t ht
    rcases eq_or_lt_of_le ht with h0 | hpos
    · have : decayTowardBaseline current baseline rate t = current := by
        simp [decayTowardBaseline, ← h0]
      rw [this]
      exact ⟨min_le_left _ _, le_max_left _ _⟩
    · rw [key t hpos]
      have hE0 : 0 < Real.exp (-(rate * t)) := Real.exp_pos _
      have hE1 : Real.exp (-(rate * t)) ≤ 1 := by
        apply Real.exp_le_one_iff.mpr
        nlinarith
      rcases le_total baseline current with hbc | hcb
      · constructor
        · have : min current baseline = baseline := min_eq_right hbc
          nlinarith
        · have : max current baseline = current := max_eq_left hbc
          nlinarith
      · constructor
        · have : min current baseline = current := min_eq_left hcb
          nlinarith
        · have : max current baseline = baseline := max_eq_right hcb
          nlinarith
  · intro t1 t2 ht1 h12
    have dist : ∀ t : ℝ, 0 < t →
        |decayTowardBaseline current baseline rate t - baseline| =
          |current - baseline| * Real.exp (-(rate * t)) := by
      intro t ht
      rw [key t ht, add_sub_cancel_left, abs_mul, abs_of_pos (Real.exp_pos _)]
    rcases eq_or_lt_of_le ht1 with h0 | hpos1
    · have e1 : decayTowardBaseline current baseline rate t1 = current := by
        simp [decayTowardBaseline, ← h0]
      rcases le_or_lt t2 0 with h2 | h2
      · have e2 : decayTowardBaseline current baseline rate t2 = current := by
          simp [decayTowardBaseline, h2]
        rw [e1, e2]
      · rw [dist t2 h2, e1]
        calc |current - baseline| * Real.exp (-(rate * t2))
            ≤ |current - baseline| * 1 := by
              apply mul_le_mul_of_nonneg_left _ (abs_nonneg _)
              apply Real.exp_le_one_iff.mpr
              nlinarith
          _ = |current - baseline| := mul_one _
    · have hpos2 : 0 < t2 := lt_of_lt_of_le hpos1 h12
      rw [dist t1 hpos1, dist t2 hpos2]
      apply mul_le_mul_of_nonneg_left _ (abs_nonneg _)
      apply Real.exp_le_exp.mpr
      nlinarith

/-- Witness for C4 at concrete inputs: rate 1, elapsed times 2 and 3 with
current 1 and baseline 0. -/
theorem decayTowardBaseline_bounded_monotone_witness :
    (min 1 0 ≤ decayTowardBaseline 1 0 1 2 ∧ decayTowardBaseline 1 0 1 2 ≤ max 1 0) ∧
    |decayTowardBaseline 1 0 1 3 - 0| ≤ |decayTowardBaseline 1 0 1 2 - 0| :=
  ⟨(decayTowardBaseline_bounded_monotone 1 0 1 (by norm_num)).1 2 (by norm_num),
   (decayTowardBaseline_bounded_monotone 1 0 1 (by norm_num)).2 2 3 (by norm_num) (by norm_num)⟩

-- ---------------------------------------------------------------------------
-- C1: saveState locking discipline
-- ---------------------------------------------------------------------------

/-- C1 counterexample: on a lock that is held and not stale, `acquireLock`
returns false, yet `saveState` still writes the state file and reports
success — it neither skips the write nor surfaces a "could not save"
failure. -/
theorem saveState_lock_failure_counterexample :
    (acquireLock { lockExists := true, lockStale := false, fileContents := none }).1 = false ∧
    (StateManager.saveState true "t1" (buildEmptyState "t0")
        { lockExists := true, lockStale := false, fileContents := none }).2.fileContents =
      some { buildEmptyState "t0" with lastUpdated := "t1" } ∧
    (StateManager.saveState true "t1" (buildEmptyState "t0")
        { lockExists := true, lockStale := false, fileContents := none }).1 = Except.ok () :=
  ⟨rfl, rfl, rfl⟩

/-- C1 (amended): `saveState` acquires the lock, writes, and releases the
lock on every exit path on which it was acquired (including I/O failure),
never removing a lock it did not acquire; but a failed `acquireLock` is not
surfaced — the write proceeds anyway and the caller sees only the write's
own outcome. -/
theorem saveState_discipline (writeOk : Bool) (nowIso : String)
    (state : EmotionEngineState) (fs : LockFileSystem) :
    ((StateManager.saveState writeOk nowIso state fs).2.lockExists =
      if (acquireLock fs).1 then false else fs.lockExists) ∧
    ((StateManager.saveState writeOk nowIso state fs).1 =
      (writeStateFile writeOk { state with lastUpdated := nowIso } (acquireLock fs).2).1) ∧
    ((StateManager.saveState writeOk nowIso state fs).2.fileContents =
      if writeOk then some { state with lastUpdated := nowIso } else fs.fileContents) := by
  obtain ⟨le, ls, fc⟩ := fs
  cases le <;> cases ls <;> cases writeOk <;>
    simp [StateManager.saveState, acquireLock, releaseLock, writeStateFile]

-- ---------------------------------------------------------------------------
-- C5: reset idempotence
-- ---------------------------------------------------------------------------

/-- C5 counterexample: a second full reset is not a fixed point — every call
to `resetToBaseline` bumps `meta.totalUpdates`, so the doubly-reset state
differs from the singly-reset one. -/
theorem resetToBaseline_not_idempotent :
    StateManager.resetToBaseline
        (StateManager.resetToBaseline (buildEmptyState "t0") none) none ≠
      StateManager.resetToBaseline (buildEmptyState "t0") none := by
  intro h
  have hc := congrArg (fun s => s.meta.totalUpdates) h
  simp only [StateManager.resetToBaseline, buildEmptyState] at hc
  omega

/-- C5 (amended): a second full reset changes nothing but the update counter:
`resetToBaseline (resetToBaseline s)` equals `resetToBaseline s` with
`meta.totalUpdates` incremented by one (dimensions, basic emotions and
rumination are unchanged by the second reset). -/
theorem resetToBaseline_idempotent_up_to_counter (state : EmotionEngineState) :
    StateManager.resetToBaseline (StateManager.resetToBaseline state none) none =
      { StateManager.resetToBaseline state none with
        meta := { (StateManager.resetToBaseline state none).meta with
          totalUpdates := (StateManager.resetToBaseline state none).meta.totalUpdates + 1 } } :=
  rfl

-- ---------------------------------------------------------------------------
-- C6: personality consistency
-- ---------------------------------------------------------------------------

/-- C6: after `setPersonalityTrait` the profile carries the clamped new trait
value, and baseline, dimension decay rates and emotion decay rates all equal
the values recomputed from the resulting profile — none is stale. -/
theorem setPersonalityTrait_consistent (state : EmotionEngineState)
    (trait : OCEANTrait) (value : ℝ) :
    (StateManager.setPersonalityTrait state trait value).personality =
      state.personality.set trait (max 0 (min 1 value)) ∧
    (StateManager.setPersonalityTrait state trait value).baseline =
      computeBaseline (StateManager.setPersonalityTrait state trait value).personality ∧
    (StateManager.setPersonalityTrait state trait value).decayRates =
      computeDimensionDecayRates (StateManager.setPersonalityTrait state trait value).personality ∧
    (StateManager.setPersonalityTrait state trait value).emotionDecayRates =
      computeEmotionDecayRates (StateManager.setPersonalityTrait state trait value).personality :=
  ⟨rfl, rfl, rfl, rfl⟩

-- ---------------------------------------------------------------------------
-- C7: applyStimulus
-- ---------------------------------------------------------------------------

/-- C7: `applyStimulus` scales the intensity to
`min 1 (intensity · responseIntensityMultiplier)`, applies the label's delta
mapping at that scaled intensity, prepends exactly one new stimulus (at that
scaled intensity) to the history truncated to `maxHistory`, and increments
`meta.totalUpdates` by exactly one. -/
theorem applyStimulus_spec (config : EmotionEngineConfig) (uuid nowIso : String)
    (state : EmotionEngineState) (label : String) (intensity : ℝ)
    (trigger : String) :
    (StateManager.applyStimulus config uuid nowIso state label intensity trigger).dimensions =
      (applyEmotionMapping state.dimensions state.basicEmotions label
        (min 1 (intensity * computeResponseIntensityMultiplier state.personality))).1 ∧
    (StateManager.applyStimulus config uuid nowIso state label intensity trigger).basicEmotions =
      (applyEmotionMapping state.dimensions state.basicEmotions label
        (min 1 (intensity * computeResponseIntensityMultiplier state.personality))).2 ∧
    (StateManager.applyStimulus config uuid nowIso state label intensity trigger).recentStimuli =
      ({ id := uuid, timestamp := nowIso, label := label,
         intensity := min 1 (intensity * computeResponseIntensityMultiplier state.personality),
         trigger := trigger, confidence := 1, sourceRole := "system",
         sourceHash := none } :: state.recentStimuli).take config.maxHistory ∧
    (StateManager.applyStimulus config uuid nowIso state label intensity trigger).meta.totalUpdates =
      state.meta.totalUpdates + 1 :=
  ⟨rfl, rfl, rfl, rfl⟩

-- ---------------------------------------------------------------------------
-- C10: identity-emotion updates only touch their bucket
-- ---------------------------------------------------------------------------

/-- The stimulus record both identity-emotion updates build from a
classification result, per `state/state-manager.ts`. -/
def classifiedStimulus (uuid nowIso : String) (result : ClassificationResult)
    (role : String) : EmotionStimulus :=
  { id := uuid, timestamp := nowIso, label := result.label,
    intensity := result.intensity, trigger := result.reason,
    confidence := result.confidence, sourceRole := role, sourceHash := none }

/-- The bucket produced by pushing a stimulus onto an optional existing
bucket: `latest` is set and the history is prepended and capped. -/
def pushedBucket (stimulus : EmotionStimulus) (old : Option EmotionBucket)
    (maxHistory : ℕ) : EmotionBucket :=
  { latest := some stimulus,
    history := (stimulus :: (old.getD { latest := none, history := [] }).history).take maxHistory }

/-- C10: `updateUserEmotion` (resp. `updateAgentEmotion`) rewrites only the
addressed user (resp. agent) bucket — setting `latest` and prepending to the
capped history — and leaves dimensions, basic emotions, personality,
baseline, both decay-rate maps, stimulus history, rumination and the whole
`meta` block (in particular `totalUpdates`) unchanged, as well as the other
map. -/
theorem updateEmotion_frame (config : EmotionEngineConfig) (uuid nowIso : String)
    (state : EmotionEngineState) (key : String) (result : ClassificationResult) :
    ((StateManager.updateUserEmotion config uuid nowIso state key result).dimensions =
        state.dimensions ∧
      (StateManager.updateUserEmotion config uuid nowIso state key result).basicEmotions =
        state.basicEmotions ∧
      (StateManager.updateUserEmotion config uuid nowIso state key result).personality =
        state.personality ∧
      (StateManager.updateUserEmotion config uuid nowIso state key result).baseline =
        state.baseline ∧
      (StateManager.updateUserEmotion config uuid nowIso state key result).decayRates =
        state.decayRates ∧
      (StateManager.updateUserEmotion config uuid nowIso state key result).emotionDecayRates =
        state.emotionDecayRates ∧
      (StateManager.updateUserEmotion config uuid nowIso state key result).recentStimuli =
        state.recentStimuli ∧
      (StateManager.updateUserEmotion config uuid nowIso state key result).rumination =
        state.rumination ∧
      (StateManager.updateUserEmotion config uuid nowIso state key result).meta =
        state.meta ∧
      (StateManager.updateUserEmotion config uuid nowIso state key result).agents =
        state.agents ∧
      (StateManager.updateUserEmotion config uuid nowIso state key result).users =
        fun k => if k = key then
          some (pushedBucket (classifiedStimulus uuid nowIso result "user")
            (state.users key) config.maxHistory)
          else state.users k) ∧
    ((StateManager.updateAgentEmotion config uuid nowIso state key result).dimensions =
        state.dimensions ∧
      (StateManager.updateAgentEmotion config uuid nowIso state key result).basicEmotions =
        state.basicEmotions ∧
      (StateManager.updateAgentEmotion config uuid nowIso state key result).personality =
        state.personality ∧
      (StateManager.updateAgentEmotion config uuid nowIso state key result).baseline =
        state.baseline ∧
      (StateManager.updateAgentEmotion config uuid nowIso state key result).decayRates =
        state.decayRates ∧
      (StateManager.updateAgentEmotion config uuid nowIso state key result).emotionDecayRates =
        state.emotionDecayRates ∧
      (StateManager.updateAgentEmotion config uuid nowIso state key result).recentStimuli =
        state.recentStimuli ∧
      (StateManager.updateAgentEmotion config uuid nowIso state key result).rumination =
        state.rumination ∧
      (StateManager.updateAgentEmotion config uuid nowIso state key result).meta =
        state.meta ∧
      (StateManager.updateAgentEmotion config uuid nowIso state key result).users =
        state.users ∧
      (StateManager.updateAgentEmotion config uuid nowIso state key result).agents =
        fun k => if k = key then
          some (pushedBucket (classifiedStimulus uuid nowIso result "assistant")
            (state.agents key) config.maxHistory)
          else state.agents k) :=
  ⟨⟨rfl, rfl, rfl, rfl, rfl, rfl, rfl, rfl, rfl, rfl, rfl⟩,
   ⟨rfl, rfl, rfl, rfl, rfl, rfl, rfl, rfl, rfl, rfl, rfl⟩⟩

-- ---------------------------------------------------------------------------
-- C8: unknown labels are a silent no-op
-- ---------------------------------------------------------------------------

/-- C8: when a label's trimmed lowercase form, after alias resolution, is not
a key of the mapping table, the lookup yields no effect and no error:
`getEmotionMapping` returns `none` and `applyEmotionMapping` returns its
dimension and emotion inputs unchanged, at every intensity. -/
theorem unknown_label_no_effect (label : String)
    (h : (ALL_EMOTION_MAPPINGS.lookup
      ((LABEL_ALIASES.lookup (jsToLowerCase (jsTrim label))).getD
        (jsToLowerCase (jsTrim label)))).isNone = true) :
    getEmotionMapping label = none ∧
    ∀ (dimensions : DimensionalState) (emotions : BasicEmotions) (intensity : ℝ),
      applyEmotionMapping dimensions emotions label intensity = (dimensions, emotions) := by
  have hn : getEmotionMapping label = none := Option.isNone_iff_eq_none.mp h
  refine ⟨hn, ?_⟩
  intro dimensions emotions intensity
  unfold applyEmotionMapping
  rw [hn]

/-- Witness for C8 at the concrete unknown label "bored": it is absent from
the table even after normalization and alias resolution, and applying it to
the default state at intensity 1 changes nothing. -/
theorem unknown_label_no_effect_witness :
    getEmotionMapping "bored" = none ∧
    applyEmotionMapping createDefaultDimensionalState createDefaultBasicEmotions "bored" 1 =
      (createDefaultDimensionalState, createDefaultBasicEmotions) :=
  ⟨(unknown_label_no_effect "bored" (by decide)).1,
   (unknown_label_no_effect "bored" (by decide)).2 createDefaultDimensionalState
     createDefaultBasicEmotions 1⟩

-- ---------------------------------------------------------------------------
-- C2: the range invariant
-- ---------------------------------------------------------------------------

/-- The declared lower bound of a dimension: −1 for bipolar, 0 for unipolar
(every upper bound is 1). -/
def dimensionLowerBound (name : DimensionName) : ℝ :=
  if name.isBipolar then -1 else 0

/-- Every dimension lies in its declared range. -/
def DimensionalState.InRange (d : DimensionalState) : Prop :=
  ∀ name : DimensionName, dimensionLowerBound name ≤ d.get name ∧ d.get name ≤ 1

/-- Every basic emotion lies in [0, 1]. -/
def BasicEmotions.InRange (e : BasicEmotions) : Prop :=
  ∀ name : BasicEmotionName, 0 ≤ e.get name ∧ e.get name ≤ 1

/-- Every OCEAN trait lies in [0, 1]. -/
def OCEANProfile.InRange (p : OCEANProfile) : Prop :=
  ∀ trait : OCEANTrait, 0 ≤ p.get trait ∧ p.get trait ≤ 1

/-- The aggregate range invariant over an engine state. -/
def EngineInRange (state : EmotionEngineState) : Prop :=
  state.dimensions.InRange ∧ state.basicEmotions.InRange ∧ state.personality.InRange

/-- `clampDimension` always lands in the dimension's declared range. -/
theorem clampDimension_mem (name : DimensionName) (x : ℝ) :
    dimensionLowerBound name ≤ clampDimension name x ∧ clampDimension name x ≤ 1 := by
  unfold clampDimension dimensionLowerBound clampBipolar clampUnipolar
  split
  · exact ⟨le_max_left _ _, max_le (by norm_num) (min_le_left _ _)⟩
  · exact ⟨le_max_left _ _, max_le (by norm_num) (min_le_left _ _)⟩

/-- `clampEmotion` always lands in [0, 1]. -/
theorem clampEmotion_mem (x : ℝ) : 0 ≤ clampEmotion x ∧ clampEmotion x ≤ 1 :=
  ⟨le_max_left _ _, max_le (by norm_num) (min_le_left _ _)⟩

/-- Reading back a written dimension field. -/
theorem dimension_get_set (d : DimensionalState) (n : DimensionName)
    (v : ℝ) (m : DimensionName) :
    (d.set n v).get m = if m = n then v else d.get m := by
  cases n <;> cases m <;> simp [DimensionalState.set, DimensionalState.get]

/-- Reading back a written basic-emotion field. -/
theorem emotion_get_set (e : BasicEmotions) (n : BasicEmotionName)
    (v : ℝ) (m : BasicEmotionName) :
    (e.set n v).get m = if m = n then v else e.get m := by
  cases n <;> cases m <;> simp [BasicEmotions.set, BasicEmotions.get]

/-- Setting one dimension to a clamped value preserves the range invariant. -/
theorem dimension_set_clamped_inRange {d : DimensionalState}
    (hd : d.InRange) (n : DimensionName) (x : ℝ) :
    (d.set n (clampDimension n x)).InRange := by
  intro m
  rw [dimension_get_set]
  split
  · next hmn => exact hmn ▸ clampDimension_mem n x
  · exact hd m

/-- Setting one basic emotion to a clamped value preserves the invariant. -/
theorem emotion_set_clamped_inRange {e : BasicEmotions}
    (he : e.InRange) (n : BasicEmotionName) (x : ℝ) :
    (e.set n (clampEmotion x)).InRange := by
  intro m
  rw [emotion_get_set]
  split
  · exact clampEmotion_mem x
  · exact he m

/-- The dimension-delta fold of `applyEmotionMapping` preserves the range
invariant, whatever the delta list and intensity. -/
theorem foldl_dimension_deltas_inRange (l : List (DimensionName × ℝ))
    (intensity : ℝ) :
    ∀ d : DimensionalState, d.InRange →
      (l.foldl (fun d p => d.set p.1 (clampDimension p.1 (d.get p.1 + p.2 * intensity))) d).InRange := by
  induction l with
  | nil => intro d hd; exact hd
  | cons p t ih =>
    intro d hd
    exact ih _ (dimension_set_clamped_inRange hd p.1 _)

/-- The emotion-delta fold of `applyEmotionMapping` preserves the invariant. -/
theorem foldl_emotion_deltas_inRange (l : List (BasicEmotionName × ℝ))
    (intensity : ℝ) :
    ∀ e : BasicEmotions, e.InRange →
      (l.foldl (fun e p => e.set p.1 (clampEmotion (e.get p.1 + p.2 * intensity))) e).InRange := by
  induction l with
  | nil => intro e he; exact he
  | cons p t ih =>
    intro e he
    exact ih _ (emotion_set_clamped_inRange he p.1 _)

/-- `applyEmotionMapping` preserves both range invariants. -/
theorem applyEmotionMapping_inRange (dimensions : DimensionalState)
    (emotions : BasicEmotions) (label : String) (intensity : ℝ)
    (hd : dimensions.InRange) (he : emotions.InRange) :
    (applyEmotionMapping dimensions emotions label intensity).1.InRange ∧
    (applyEmotionMapping dimensions emotions label intensity).2.InRange := by
  unfold applyEmotionMapping
  cases getEmotionMapping label with
  | none => exact ⟨hd, he⟩
  | some mapping =>
    exact ⟨foldl_dimension_deltas_inRange mapping.dimensions intensity dimensions hd,
           foldl_emotion_deltas_inRange mapping.emotions intensity emotions he⟩

/-- `decayDimensions` clamps every field, so its output is always in range. -/
theorem decayDimensions_inRange (state baseline : DimensionalState)
    (rates : DecayRates) (elapsedHours : ℝ) :
    (decayDimensions state baseline rates elapsedHours).InRange := by
  intro name
  cases name <;>
    exact clampDimension_mem _ _

/-- `decayBasicEmotions` clamps every field, so its output is in [0, 1]. -/
theorem decayBasicEmotions_inRange (emotions : BasicEmotions)
    (rates : EmotionDecayRates) (elapsedHours : ℝ) :
    (decayBasicEmotions emotions rates elapsedHours).InRange := by
  intro name
  cases name <;>
    exact clampEmotion_mem _

/-- One orchestrator call of the kind the claim quantifies over. -/
inductive EngineOp where
  | stimulus (uuid nowIso label : String) (intensity : ℝ) (trigger : String)
  | decay (elapsedRaw : ℝ) (nowIso : String)
  | setDim (dimension : DimensionName) (value : ℝ)

/-- Run one orchestrator call on a state. -/
noncomputable def runOp (config : EmotionEngineConfig) (op : EngineOp)
    (state : EmotionEngineState) : EmotionEngineState :=
  match op with
  | .stimulus uuid nowIso label intensity trigger =>
    StateManager.applyStimulus config uuid nowIso state label intensity trigger
  | .decay elapsedRaw nowIso => StateManager.applyDecay elapsedRaw nowIso state
  | .setDim dimension value => StateManager.setDimension state dimension value

/-- Run a finite sequence of orchestrator calls, oldest first. -/
noncomputable def runOps (config : EmotionEngineConfig) (ops : List EngineOp)
    (state : EmotionEngineState) : EmotionEngineState :=
  ops.foldl (fun s op => runOp config op s) state

/-- `applyStimulus` preserves the aggregate range invariant. -/
theorem applyStimulus_inRange (config : EmotionEngineConfig)
    (uuid nowIso : String) (state : EmotionEngineState) (label : String)
    (intensity : ℝ) (trigger : String) (h : EngineInRange state) :
    EngineInRange (StateManager.applyStimulus config uuid nowIso state label intensity trigger) := by
  obtain ⟨hd, he, hp⟩ := h
  have hm := applyEmotionMapping_inRange state.dimensions state.basicEmotions label
    (min 1 (intensity * computeResponseIntensityMultiplier state.personality)) hd he
  exact ⟨hm.1, hm.2, hp⟩

/-- `applyDecay` preserves the aggregate range invariant. -/
theorem applyDecay_inRange (elapsedRaw : ℝ) (nowIso : String)
    (state : EmotionEngineState) (h : EngineInRange state) :
    EngineInRange (StateManager.applyDecay elapsedRaw nowIso state) := by
  obtain ⟨hd, he, hp⟩ := h
  simp only [StateManager.applyDecay]
  split
  · exact ⟨hd, he, hp⟩
  · exact ⟨decayDimensions_inRange _ _ _ _, decayBasicEmotions_inRange _ _ _, hp⟩

/-- `setDimension` preserves the aggregate range invariant. -/
theorem setDimension_inRange (state : EmotionEngineState)
    (dimension : DimensionName) (value : ℝ) (h : EngineInRange state) :
    EngineInRange (StateManager.setDimension state dimension value) := by
  obtain ⟨hd, he, hp⟩ := h
  exact ⟨dimension_set_clamped_inRange hd dimension value, he, hp⟩

/-- A single orchestrator call preserves the aggregate range invariant. -/
theorem runOp_inRange (config : EmotionEngineConfig) (op : EngineOp)
    (state : EmotionEngineState) (h : EngineInRange state) :
    EngineInRange (runOp config op state) := by
  cases op with
  | stimulus uuid nowIso label intensity trigger =>
    exact applyStimulus_inRange config uuid nowIso state label intensity trigger h
  | decay elapsedRaw nowIso =>
    exact applyDecay_inRange elapsedRaw nowIso state h
  | setDim dimension value =>
    exact setDimension_inRange state dimension value h

/-- C2: starting from a state whose dimensions, basic emotions and
personality traits are in their declared ranges, any finite sequence of
`applyStimulus`/`applyDecay`/`setDimension` calls leaves every dimension in
its declared range and every basic emotion and OCEAN trait in [0, 1]. -/
theorem runOps_inRange (config : EmotionEngineConfig) (ops : List EngineOp)
    (state : EmotionEngineState) (h : EngineInRange state) :
    EngineInRange (runOps config ops state) := by
  induction ops generalizing state with
  | nil => exact h
  | cons op t ih => exact ih _ (runOp_inRange config op state h)

/-- The engine-relevant slice of `DEFAULT_CONFIG` from `src/types.ts`. -/
noncomputable def defaultEngineConfig : EmotionEngineConfig :=
  { maxHistory := 100, ruminationEnabled := true,
    ruminationThreshold := 0.7, ruminationMaxStages := 4 }

/-- The canonical empty state satisfies the aggregate range invariant. -/
theorem buildEmptyState_inRange (nowIso : String) :
    EngineInRange (buildEmptyState nowIso) := by
  refine ⟨?_, ?_, ?_⟩
  · intro name
    cases name <;>
      norm_num [buildEmptyState, createDefaultDimensionalState, DimensionalState.get,
        dimensionLowerBound, DimensionName.isBipolar]
  · intro name
    cases name <;>
      norm_num [buildEmptyState, createDefaultBasicEmotions, BasicEmotions.get]
  · intro trait
    cases trait <;>
      norm_num [buildEmptyState, createDefaultPersonality, OCEANProfile.get]

/-- Witness for C2: a concrete three-call sequence (an out-of-range
`setDimension`, an "angry" stimulus, a 12-hour decay) on the default state
stays within every declared range. -/
theorem runOps_inRange_witness :
    EngineInRange (runOps defaultEngineConfig
      [.setDim .pleasure 5, .stimulus "u1" "t1" "angry" 0.8 "test", .decay 12 "t2"]
      (buildEmptyState "t0")) :=
  runOps_inRange defaultEngineConfig
    [.setDim .pleasure 5, .stimulus "u1" "t1" "angry" 0.8 "test", .decay 12 "t2"]
    (buildEmptyState "t0") (buildEmptyState_inRange "t0")

-- ---------------------------------------------------------------------------
-- C9: rumination termination
-- ---------------------------------------------------------------------------

/-- Every entry surviving one advance of the rumination list has the stage of
some previous entry plus one, and that stage is strictly below `maxStages`. -/
theorem mem_advanceRumination (st : RuminationState) (maxStages : ℕ)
    (decayFactor : ℝ) (e' : RuminationEntry)
    (h : e' ∈ (advanceRumination st maxStages decayFactor).active) :
    (∃ e ∈ st.active, e'.stage = e.stage + 1) ∧ e'.stage < maxStages := by
  unfold advanceRumination at h
  rw [List.mem_filterMap] at h
  obtain ⟨e, he, hfe⟩ := h
  split at hfe
  · exact absurd hfe (by simp)
  · next hc =>
    obtain ⟨hc1, hc2⟩ := not_or.mp hc
    obtain rfl := Option.some_injective _ hfe
    exact ⟨⟨e, he, rfl⟩, show e.stage + 1 < maxStages by omega⟩

/-- With rumination enabled, every entry surviving one `StateManager`
advance stems from a previous entry with stage one lower, below the cap. -/
theorem mem_manager_advanceRumination (config : EmotionEngineConfig)
    (hE : config.ruminationEnabled = true) (s : EmotionEngineState)
    (e' : RuminationEntry)
    (h : e' ∈ (StateManager.advanceRumination config s).rumination.active) :
    (∃ e ∈ s.rumination.active, e'.stage = e.stage + 1) ∧
      e'.stage < config.ruminationMaxStages := by
  unfold StateManager.advanceRumination at h
  split at h
  · next hcond =>
    rcases hcond with h1 | h2
    · rw [hE] at h1
      cases h1
    · rw [List.length_eq_zero] at h2
      rw [h2] at h
      cases h
  · exact mem_advanceRumination _ _ _ _ h

/-- After `k` enabled advances, every remaining entry has stage at least `k`,
and (once at least one advance has happened) strictly below the cap. -/
theorem iterate_advanceRumination_stage (config : EmotionEngineConfig)
    (hE : config.ruminationEnabled = true) (state : EmotionEngineState) :
    ∀ k : ℕ,
      ∀ e' ∈ ((StateManager.advanceRumination config)^[k] state).rumination.active,
        k ≤ e'.stage ∧ (1 ≤ k → e'.stage < config.ruminationMaxStages) := by
  intro k
  induction k with
  | zero =>
    intro e' _
    exact ⟨Nat.zero_le _, by omega⟩
  | succ n ih =>
    intro e' he
    rw [Function.iterate_succ_apply'] at he
    obtain ⟨⟨e, hm, hstage⟩, hlt⟩ := mem_manager_advanceRumination config hE _ e' he
    have hn := (ih e hm).1
    exact ⟨by omega, fun _ => hlt⟩

/-- C9 (amended): provided rumination is enabled in the configuration, from
any state whose rumination entries carry intensities in [0, 1], at most
`ruminationMaxStages + 1` calls to `StateManager.advanceRumination` empty
the active rumination list; and each call multiplies every entry's intensity
by 0.8, increments its stage, and drops it exactly when the new stage
reaches `maxStages` or the new intensity falls below 0.05. -/
theorem advanceRumination_terminates (config : EmotionEngineConfig)
    (hE : config.ruminationEnabled = true) (state : EmotionEngineState)
    (_hI : ∀ e ∈ state.rumination.active, 0 ≤ e.intensity ∧ e.intensity ≤ 1) :
    ((StateManager.advanceRumination config)^[config.ruminationMaxStages + 1]
        state).rumination.active = [] ∧
    ∀ s : EmotionEngineState,
      (StateManager.advanceRumination config s).rumination.active =
        s.rumination.active.filterMap (fun e =>
          if config.ruminationMaxStages ≤ e.stage + 1 ∨ e.intensity * 0.8 < 0.05 then none
          else some { e with intensity := e.intensity * 0.8, stage := e.stage + 1 }) := by
  constructor
  · rw [List.eq_nil_iff_forall_not_mem]
    intro e' he
    obtain ⟨hge, hlt⟩ :=
      iterate_advanceRumination_stage config hE state (config.ruminationMaxStages + 1) e' he
    have := hlt (by omega)
    omega
  · intro s
    unfold StateManager.advanceRumination
    split
    · next hcond =>
      rcases hcond with h1 | h2
      · rw [hE] at h1
        cases h1
      · rw [List.length_eq_zero] at h2
        rw [h2]
        rfl
    · rfl

/-- A config identical to the default but with rumination disabled. -/
noncomputable def ruminationOffConfig : EmotionEngineConfig :=
  { maxHistory := 100, ruminationEnabled := false,
    ruminationThreshold := 0.7, ruminationMaxStages := 4 }

/-- The default state carrying one active rumination entry at stage 0 with
intensity 0.9. -/
noncomputable def ruminatingState : EmotionEngineState :=
  { buildEmptyState "t0" with
    rumination := { active := [{ stimulusId := "s1", label := "angry",
                                 stage := 0, intensity := 0.9,
                                 lastStageTimestamp := "t0" }] } }

/-- C9 counterexample: the claim quantifies over every state and manager, but
when the configuration has rumination disabled, `advanceRumination` is a
no-op and a valid-intensity entry survives `ruminationMaxStages + 1` calls. -/
theorem advanceRumination_claim_counterexample :
    (∀ e ∈ ruminatingState.rumination.active, 0 ≤ e.intensity ∧ e.intensity ≤ 1) ∧
    ((StateManager.advanceRumination ruminationOffConfig)^[ruminationOffConfig.ruminationMaxStages + 1]
        ruminatingState).rumination.active ≠ [] := by
  constructor
  · intro e he
    simp only [ruminatingState, List.mem_singleton] at he
    subst he
    norm_num
  · have hfix : StateManager.advanceRumination ruminationOffConfig ruminatingState =
        ruminatingState := rfl
    rw [Function.iterate_fixed hfix]
    simp [ruminatingState]

/-- Witness for the amended C9 at the default (rumination-enabled) config and
a concrete single-entry state. -/
theorem advanceRumination_terminates_witness :
    ((StateManager.advanceRumination defaultEngineConfig)^[defaultEngineConfig.ruminationMaxStages + 1]
        ruminatingState).rumination.active = [] :=
  (advanceRumination_terminates defaultEngineConfig rfl ruminatingState
    (by
      intro e he
      simp only [ruminatingState, List.mem_singleton] at he
      subst he
      norm_num)).1

end OpenFeelz
